import Mathlib

/-!
Shallow embedding of `turbinia/turbiniactl.py` (the `main` function after
argument parsing, lines 306-551) together with the helper `csv_list`.

Modelling conventions:
* `Args` mirrors the flat argparse namespace of global options; the chosen
  subcommand and its per-variant options are a tagged sum `Command`.
* External collaborators (logging, the Turbinia client, server and worker
  objects, `print`) are recorded as `Event`s in an observable trace.
* `sys.exit(n)` terminates the run with exit code `n`; the final
  `sys.exit(0)` on line 551 makes every terminating run produce a code.
* Blocking collaborator calls (`worker.start()`, `server.start()`,
  `client.wait_for_request`) are recorded as events and treated as
  returning, since their internals are out of scope.
* Python truthiness of optional strings (None and "" are falsy) is
  modelled by `truthy`; truthiness of lists by `List.isEmpty`.
* `os.path.abspath` / `os.path.normpath` and Python's `str.split` are
  standard-library collaborators, modelled executably by their documented
  POSIX behaviour (`abspath`, `normpath`, `pySplit`).
-/

namespace Turbinia

/-- Python truthiness of an optional string: `None` and `''` are falsy. -/
def truthy : Option String → Bool
  | none => false
  | some s => !s.isEmpty

/-- Model of Python's `str.split` with an explicit one-character separator:
splits at every occurrence of the separator, so the result always has at
least one element and `''.split(c) == ['']`. -/
def splitOnChar (c : Char) : List Char → List (List Char)
  | [] => [[]]
  | x :: xs =>
    let r := splitOnChar c xs
    if x = c then [] :: r
    else match r with
      | [] => [[x]]
      | h :: t => (x :: h) :: t

/-- String wrapper for `splitOnChar`, modelling Python's `s.split(c)`. -/
def pySplit (c : Char) (s : String) : List String :=
  (splitOnChar c s.data).map (fun l => String.mk l)

/-- `csv_list` from turbiniactl.py: `return string.split(',')`. -/
def csv_list (string : String) : List String :=
  pySplit ',' string

/-- Number of leading slashes kept by POSIX `os.path.normpath`: one, or two
for a path that starts with exactly two slashes. -/
def initialSlashes : List Char → Nat
  | '/' :: '/' :: '/' :: _ => 1
  | '/' :: '/' :: _ => 2
  | '/' :: _ => 1
  | _ => 0

/-- Component-normalization step of POSIX `os.path.normpath`: drop empty and
`.` components, resolve `..` against preceding components. -/
def normpathComps (isAbs : Bool) (comps : List String) : List String :=
  comps.foldl
    (fun acc comp =>
      if comp == "" || comp == "." then acc
      else if comp != ".." then acc ++ [comp]
      else if (!isAbs && acc.isEmpty) || acc.getLast? == some ".." then acc ++ [comp]
      else if !acc.isEmpty then acc.dropLast
      else acc)
    []

/-- Model of Python's `os.path.normpath` for POSIX paths. -/
def normpath (path : String) : String :=
  if path == "" then "."
  else
    let slashes := initialSlashes path.data
    let comps := normpathComps (slashes > 0)
      ((splitOnChar '/' path.data).map (fun l => String.mk l))
    let res := String.mk (List.replicate slashes '/') ++ String.intercalate "/" comps
    if res == "" then "." else res

/-- Model of Python's `os.path.abspath`: join the working directory with the
path if it is relative, then normalize. -/
def abspath (cwd path : String) : String :=
  if path.data.head? == some '/' then normpath path
  else normpath (cwd ++ "/" ++ path)

/-- Evidence entities as constructed by `turbiniactl.main`.  The evidence
classes live in `turbinia/evidence.py`, which is not among the sources; the
variant set and the per-variant fields are exactly those passed at the
construction sites in turbiniactl.py (lines 363-411). -/
inductive Evidence where
  | rawDisk (name local_path : String) (mount_partition : Int) (source : Option String)
  | apfsEncryptedDisk (name local_path : String) (recovery_key password source : Option String)
  | bitlockerDisk (name local_path : String) (recovery_key password source : Option String)
  | directory (name local_path : String) (source : Option String)
  | googleCloudDisk (name disk_name project : String) (mount_partition : Int)
      (zone : String) (source : Option String)
  | googleCloudDiskRawEmbedded (name disk_name embedded_path : String)
      (mount_partition : Int) (project zone : String) (source : Option String)
  | rawMemory (name local_path profile : String) (module_list : List String)
deriving Repr, DecidableEq

/-- Modelled from the spec: `cloud_only` is an attribute of the evidence
classes in `turbinia/evidence.py` (not among the sources); per the spec it is
true exactly for the two Google Cloud variants. -/
def Evidence.cloud_only : Evidence → Bool
  | .googleCloudDisk .. => true
  | .googleCloudDiskRawEmbedded .. => true
  | _ => false

/-- Display name of an Evidence entity (the `name` constructor field). -/
def Evidence.name : Evidence → String
  | .rawDisk n .. => n
  | .apfsEncryptedDisk n .. => n
  | .bitlockerDisk n .. => n
  | .directory n .. => n
  | .googleCloudDisk n .. => n
  | .googleCloudDiskRawEmbedded n .. => n
  | .rawMemory n .. => n

/-- Modelled from the spec: the `project` attribute is present only on the
cloud variants (`turbinia/evidence.py` is not among the sources). -/
def Evidence.project : Evidence → Option String
  | .googleCloudDisk _ _ p .. => some p
  | .googleCloudDiskRawEmbedded _ _ _ _ p .. => some p
  | _ => none

/-- Modelled from the spec: `type` is the evidence class name, used in the
compatibility-gate diagnostics. -/
def Evidence.type : Evidence → String
  | .rawDisk .. => "RawDisk"
  | .apfsEncryptedDisk .. => "APFSEncryptedDisk"
  | .bitlockerDisk .. => "BitlockerDisk"
  | .directory .. => "Directory"
  | .googleCloudDisk .. => "GoogleCloudDisk"
  | .googleCloudDiskRawEmbedded .. => "GoogleCloudDiskRawEmbedded"
  | .rawMemory .. => "RawMemory"

/-- The chosen subcommand with its per-variant options (the argparse
subparsers of turbiniactl.py, lines 123-304). -/
inductive Command where
  | rawdisk (local_path : String) (mount_partition : Int) (source name : Option String)
  | apfs (local_path : String) (recovery_key password source name : Option String)
  | bitlocker (local_path : String) (recovery_key password source name : Option String)
  | googleclouddisk (disk_name project : String) (mount_partition : Int)
      (zone : String) (source name : Option String)
  | googleclouddiskembedded (embedded_path disk_name project : String)
      (mount_partition : Int) (zone : String) (source name : Option String)
  | rawmemory (local_path profile : String) (name : Option String) (module_list : List String)
  | directory (local_path : String) (source name : Option String)
  | listjobs
  | psqworker (single_threaded : Bool)
  | celeryworker
  | status (close_tasks : Bool) (days_history : Int) (force : Bool)
      (request_id : Option String) (priority_filter : Int) (full_report : Bool)
      (task_id user : Option String)
  | server
deriving Repr, DecidableEq

/-- The global argparse options of turbiniactl.py (lines 61-121) plus the
chosen subcommand (`none` when no subcommand was given).  Defaults are the
argparse defaults. -/
structure Args where
  quiet : Bool := false
  verbose : Bool := true
  debug : Bool := false
  all_fields : Bool := false
  force_evidence : Bool := false
  output_dir : Option String := none
  log_file : Option String := none
  request_id : Option String := none
  run_local : Bool := false
  server : Bool := false
  dump_json : Bool := false
  filter_patterns_file : Option String := none
  jobs_whitelist : List String := []
  jobs_blacklist : List String := []
  poll_interval : Nat := 60
  task : Option String := none
  wait : Bool := false
  cmd : Option Command := none
deriving Repr, DecidableEq

/-- The deployment configuration values read from `turbinia.config` by
`main` (the config loader itself is an external collaborator). -/
structure Config where
  SHARED_FILESYSTEM : Bool
  TURBINIA_PROJECT : String
  INSTANCE_ID : String := "turbinia-instance"
  TURBINIA_REGION : String := "us-central1"
  TASK_MANAGER : String := "PSQ"
deriving Repr, DecidableEq

/-- Ambient facts supplied by external collaborators during one invocation:
the process working directory (for `os.path.abspath`), the filesystem view
used for the filter-patterns file, the invoking user (`getpass.getuser`),
the request id generated when none is supplied, the task runner's result
string, and the version string. -/
structure World where
  version : String := "20190819"
  cwd : String := "/root"
  file_exists : String → Bool := fun _ => false
  read_file : String → Except String (List String) := fun _ => .error "io error"
  username : String := "operator"
  gen_request_id : String := "generated-request-id"
  task_result : String := ""

/-- The per-request recipe mapping; a field is `none` when the corresponding
key was never set (`turbinia/message.py` is not among the sources; the key
set is the one written by turbiniactl.py lines 505-510). -/
structure Recipe where
  filter_patterns : Option (List String) := none
  jobs_blacklist : Option (List String) := none
  jobs_whitelist : Option (List String) := none
deriving Repr, DecidableEq

/-- Modelled from the spec: a `TurbiniaRequest` (`turbinia/message.py` is not
among the sources) carries a caller-supplied or generated `request_id`, the
`requester` identity, the ordered evidence list and the recipe. -/
structure TurbiniaRequest where
  request_id : String
  requester : String
  evidence : List Evidence
  recipe : Recipe
deriving Repr, DecidableEq

/-- Rendering of one Evidence entry inside the request serialization. -/
def renderEvidence (e : Evidence) : String :=
  "\x7b\"name\": \"" ++ e.name ++ "\", \"type\": \"" ++ e.type ++ "\"\x7d"

/-- Rendering of a string list inside the request serialization. -/
def renderStrList (l : List String) : String :=
  "[" ++ String.intercalate ", " (l.map (fun s => "\"" ++ s ++ "\"")) ++ "]"

/-- Rendering of a possibly-unset recipe entry. -/
def renderOptList : Option (List String) → String
  | none => "unset"
  | some l => renderStrList l

/-- Rendering of the full recipe (all three keys) inside the serialization. -/
def Recipe.render (r : Recipe) : String :=
  "\x7b\"filter_patterns\": " ++ renderOptList r.filter_patterns ++
  ", \"jobs_blacklist\": " ++ renderOptList r.jobs_blacklist ++
  ", \"jobs_whitelist\": " ++ renderOptList r.jobs_whitelist ++ "\x7d"

/-- Modelled from the spec: `TurbiniaRequest.to_json` lives in
`turbinia/message.py`, which is not among the sources; per the spec the dump
is "a complete, lossless textual serialization of a Request (all fields)". -/
def TurbiniaRequest.to_json (r : TurbiniaRequest) : String :=
  "\x7b\"request_id\": \"" ++ r.request_id ++
  "\", \"requester\": \"" ++ r.requester ++
  "\", \"evidence\": [" ++ String.intercalate ", " (r.evidence.map renderEvidence) ++
  "], \"recipe\": " ++ Recipe.render r.recipe ++ "\x7d"

/-- Observable side effects of one invocation: log lines, `print` output,
object constructions, and calls on external collaborators. -/
inductive Event where
  | logError (msg : String)
  | logWarning (msg : String)
  | logInfo (msg : String)
  | logDebug (msg : String)
  | printOut (s : String)
  | constructEvidence (e : Evidence)
  | constructRequest (r : TurbiniaRequest)
  | closeTasksCall (request_id task_id user : Option String)
  | waitForRequest (request_id : String) (user : Option String) (poll_interval : Nat)
  | formatTaskStatus (request_id task_id user : Option String) (days : Int)
      (all_fields full_report : Bool) (priority_filter : Int)
  | formatStatusAfterWait (request_id : String) (all_fields : Bool)
  | listJobsCall
  | sendRequest (r : TurbiniaRequest)
  | runLocalTask (task : Option String) (r : Option TurbiniaRequest)
  | serverAddEvidence (e : Evidence)
  | serverStart
  | serverStartWithJobs (jobs_blacklist jobs_whitelist : List String)
  | workerStart
deriving Repr, DecidableEq

/-- Result of one whole invocation: the event trace and the exit code. -/
structure Outcome where
  events : List Event
  code : Nat
deriving Repr, DecidableEq

/-- Result of one stage of `main`: either `sys.exit(code)` after emitting the
given events, or continue with a value. -/
inductive StepRes (α : Type) where
  | exit (tr : List Event) (code : Nat)
  | cont (tr : List Event) (val : α)
deriving Repr

/-- Events emitted by a stage, whether it exited or continued. -/
def StepRes.trace : StepRes α → List Event
  | .exit t _ => t
  | .cont t _ => t

/-- Diagnostic texts of turbiniactl.py, verbatim (message on line 325 is
logged without `.format`, so the placeholder stays literal). -/
def jobsConflictMsg : String :=
  "A Job filter whitelist and blacklist cannot be specified at the same time"

def filterMissingMsg : String :=
  "Filter patterns file \x7b0:s\x7d does not exist."

def cannotOpenMsg (f e : String) : String :=
  "Cannot open file " ++ f ++ " [" ++ e ++ "]"

def runLocalServerMsg : String :=
  "--run_local flag is not compatible with server/worker flags"

def runLocalTaskMsg : String :=
  "--run_local flag requires --task flag"

def noCredentialMsg : String :=
  "Neither recovery key nor password is specified."

def closeTasksRequiresMsg : String :=
  "--close_tasks (-c) requires --user, --request_id, or/and --task_id"

def waitNoRequestIdMsg : String :=
  "--wait requires --request_id, which is not specified. turbiniactl will exit without waiting."

def cloudOnlyMsg (t : String) : String :=
  "The evidence type " ++ t ++
  " is Cloud only, and this instance of Turbinia is not a cloud instance."

def notCloudCapableMsg (t : String) : String :=
  "The evidence type " ++ t ++
  " cannot run on Cloud instances of Turbinia. Consider wrapping it in a GoogleCloudDiskRawEmbedded or other Cloud compatible object"

def projectMismatchMsg (turbiniaProject evidenceProj : String) : String :=
  "Turbinia project " ++ turbiniaProject ++ " is different from evidence project " ++
  evidenceProj ++
  ". This processing request will fail unless the Turbinia service account has permissions to this project."

def forceSuggestionMsg : String :=
  " Use --force_evidence if you are sure you want to do this."

def creatingRequestMsg (rid n : String) : String :=
  "Creating request " ++ rid ++ " with evidence " ++ n

def runCmdStatusMsg (rid : String) : String :=
  "Run command \"turbiniactl status -r " ++ rid ++
  "\" to see the status of this request and associated tasks"

def notSendingMsg : String :=
  "--run_local specified so not sending request to server"

def waitingForRequestMsg (rid : String) : String :=
  "Waiting for request " ++ rid ++ " to complete"

def evidenceRequiredMsg : String :=
  "Evidence must be specified if using --run_local"

def runLocalCloudOnlyMsg : String :=
  "--run_local cannot be used with Cloud only Evidence types"

def doneMsg : String := "Done."

/-- Whether the chosen subcommand is a worker role (line 347). -/
def isWorkerCmd : Option Command → Bool
  | some (.psqworker _) => true
  | some .celeryworker => true
  | _ => false

/-- Whether the chosen subcommand is the server role (line 346). -/
def isServerCmd : Option Command → Bool
  | some .server => true
  | _ => false

/-- Whether the subcommand is one of the two cloud-disk variants; mirrors the
`is_cloud_disk` flag set on lines 393 and 400. -/
def is_cloud_disk : Option Command → Bool
  | some (.googleclouddisk ..) => true
  | some (.googleclouddiskembedded ..) => true
  | _ => false

/-- The `project` attribute of the possibly-absent evidence entity. -/
def evidenceProject (ev? : Option Evidence) : Option String :=
  ev?.bind Evidence.project

/-- The `cloud_only` attribute of the possibly-absent evidence entity (only
ever read after presence was established, lines 540-545). -/
def evidenceCloudOnly : Option Evidence → Bool
  | some e => e.cloud_only
  | none => false

/-- Lines 316-320: reject a simultaneous job whitelist and blacklist. -/
def jobsCheck (args : Args) : StepRes Unit :=
  if !args.jobs_whitelist.isEmpty && !args.jobs_blacklist.isEmpty then
    .exit [.logError jobsConflictMsg] 1
  else .cont [] ()

/-- Lines 322-332: load the filter-patterns file.  A named but non-existent
file is fatal; a failing read is only a warning and leaves the patterns
unset. -/
def filterStage (args : Args) (w : World) : StepRes (Option (List String)) :=
  if truthy args.filter_patterns_file &&
      !w.file_exists (args.filter_patterns_file.getD "") then
    .exit [.logError filterMissingMsg] 1
  else if truthy args.filter_patterns_file then
    match w.read_file (args.filter_patterns_file.getD "") with
    | .ok lines => .cont [] (some lines)
    | .error e => .cont [.logWarning (cannotOpenMsg (args.filter_patterns_file.getD "") e)] none
  else .cont [] none

/-- Lines 346-354: `run_local` is incompatible with server/worker roles and
requires a task name. -/
def roleChecks (args : Args) : StepRes Unit :=
  if args.run_local && (args.server || isServerCmd args.cmd || isWorkerCmd args.cmd) then
    .exit [.logError runLocalServerMsg] 1
  else if args.run_local && !truthy args.task then
    .exit [.logError runLocalTaskMsg] 1
  else .cont [] ()

/-- Lines 426-458: the `status` subcommand body (close_tasks exits either
way; `wait` without a request id is skipped with a diagnostic). -/
def statusBody (args : Args) (close_tasks : Bool) (days : Int)
    (rid : Option String) (pf : Int) (fr : Bool) (tid u : Option String) :
    StepRes (Option Evidence) :=
  if close_tasks then
    if truthy u || truthy rid || truthy tid then
      .exit [.closeTasksCall rid tid u] 0
    else
      .exit [.logInfo closeTasksRequiresMsg] 1
  else
    let waitTr :=
      if args.wait && truthy rid then
        [Event.waitForRequest (rid.getD "") u args.poll_interval]
      else if args.wait && !truthy rid then
        [Event.logInfo waitNoRequestIdMsg]
      else []
    .cont (waitTr ++ [.formatTaskStatus rid tid u days args.all_fields fr pf]) none

/-- Lines 361-463: evidence construction (with name defaulting and
absolute-path normalization of `local_path`) and the non-evidence
subcommands. -/
def commandStage (args : Args) (w : World) : StepRes (Option Evidence) :=
  match args.cmd with
  | some (.rawdisk lp mp src nm) =>
    let n := if truthy nm then nm.getD "" else lp
    let ev := Evidence.rawDisk n (abspath w.cwd lp) mp src
    .cont [.constructEvidence ev] (some ev)
  | some (.apfs lp rk pw src nm) =>
    if !truthy pw && !truthy rk then
      .exit [.logError noCredentialMsg] 1
    else
      let n := if truthy nm then nm.getD "" else lp
      let ev := Evidence.apfsEncryptedDisk n (abspath w.cwd lp) rk pw src
      .cont [.constructEvidence ev] (some ev)
  | some (.bitlocker lp rk pw src nm) =>
    if !truthy pw && !truthy rk then
      .exit [.logError noCredentialMsg] 1
    else
      let n := if truthy nm then nm.getD "" else lp
      let ev := Evidence.bitlockerDisk n (abspath w.cwd lp) rk pw src
      .cont [.constructEvidence ev] (some ev)
  | some (.directory lp src nm) =>
    let n := if truthy nm then nm.getD "" else lp
    let ev := Evidence.directory n (abspath w.cwd lp) src
    .cont [.constructEvidence ev] (some ev)
  | some (.googleclouddisk dn proj mp zone src nm) =>
    let n := if truthy nm then nm.getD "" else dn
    let ev := Evidence.googleCloudDisk n dn proj mp zone src
    .cont [.constructEvidence ev] (some ev)
  | some (.googleclouddiskembedded ep dn proj mp zone src nm) =>
    let n := if truthy nm then nm.getD "" else dn
    let ev := Evidence.googleCloudDiskRawEmbedded n dn ep mp proj zone src
    .cont [.constructEvidence ev] (some ev)
  | some (.rawmemory lp profile nm ml) =>
    let n := if truthy nm then nm.getD "" else lp
    let ev := Evidence.rawMemory n (abspath w.cwd lp) profile ml
    .cont [.constructEvidence ev] (some ev)
  | some (.psqworker _) => .cont [.workerStart] none
  | some .celeryworker => .cont [.workerStart] none
  | some .server =>
    .cont [.serverStartWithJobs args.jobs_blacklist args.jobs_whitelist] none
  | some (.status close_tasks days _force rid pf fr tid u) =>
    statusBody args close_tasks days rid pf fr tid u
  | some .listjobs => .cont [.logInfo "Available Jobs:", .listJobsCall] none
  | none => .cont [.logWarning "Command None not implemented."] none

/-- Lines 465-477: the structural cloud/local compatibility gate; the whole
block is skipped when `force_evidence` is set. -/
def compatGate (args : Args) (cfg : Config) (ev? : Option Evidence) : StepRes Unit :=
  match ev? with
  | some ev =>
    if !args.force_evidence then
      if cfg.SHARED_FILESYSTEM && ev.cloud_only then
        .exit [.logError (cloudOnlyMsg ev.type)] 1
      else if !cfg.SHARED_FILESYSTEM && !ev.cloud_only then
        .exit [.logError (notCloudCapableMsg ev.type)] 1
      else .cont [] ()
    else .cont [] ()
  | none => .cont [] ()

/-- Lines 479-490: the cross-project check for cloud disks; `force_evidence`
downgrades the fatal error to a warning. -/
def projectCheck (args : Args) (cfg : Config) (ev? : Option Evidence) : StepRes Unit :=
  if is_cloud_disk args.cmd && (evidenceProject ev? != some cfg.TURBINIA_PROJECT) then
    let msg := projectMismatchMsg cfg.TURBINIA_PROJECT ((evidenceProject ev?).getD "")
    if args.force_evidence then .cont [.logWarning msg] ()
    else .exit [.logError (msg ++ forceSuggestionMsg)] 1
  else .cont [] ()

/-- Lines 505-510: the recipe keys set on a fresh request (each only when the
corresponding value is truthy). -/
def buildRecipe (args : Args) (fp : Option (List String)) : Recipe :=
  { filter_patterns :=
      match fp with
      | some l => if !l.isEmpty then some l else none
      | none => none
    jobs_blacklist :=
      if !args.jobs_blacklist.isEmpty then some args.jobs_blacklist else none
    jobs_whitelist :=
      if !args.jobs_whitelist.isEmpty then some args.jobs_whitelist else none }

/-- Lines 496-539: the dispatch router.  With evidence and the server flag
the evidence is handed to an embedded server; otherwise a request is built
and either dumped (`dump_json`, exit 0), sent to the backend, or (under
`run_local`) kept local, optionally followed by the completion waiter. -/
def dispatchStage (args : Args) (w : World) (fp : Option (List String))
    (ev? : Option Evidence) : StepRes (Option TurbiniaRequest) :=
  match ev? with
  | none => .cont [] none
  | some ev =>
    if args.server then
      .cont [.serverAddEvidence ev, .serverStart] none
    else
      let rid := if truthy args.request_id then args.request_id.getD "" else w.gen_request_id
      let request : TurbiniaRequest :=
        { request_id := rid, requester := w.username, evidence := [ev],
          recipe := buildRecipe args fp }
      if args.dump_json then
        .exit [.constructRequest request, .printOut request.to_json] 0
      else
        let sendTr :=
          if !args.run_local then [Event.sendRequest request]
          else [Event.logDebug notSendingMsg]
        let waitTr :=
          if args.wait then
            [Event.logInfo (waitingForRequestMsg rid),
             Event.waitForRequest rid none args.poll_interval,
             Event.formatStatusAfterWait rid args.all_fields]
          else []
        .cont ([.constructRequest request,
                .logInfo (creatingRequestMsg rid ev.name),
                .logInfo (runCmdStatusMsg rid)] ++ sendTr ++ waitTr)
          (some request)

/-- Lines 540-551: final `run_local` checks, the local task run, and the
closing `sys.exit(0)`. -/
def tailStage (args : Args) (w : World) (ev? : Option Evidence)
    (req? : Option TurbiniaRequest) : List Event × Nat :=
  if args.run_local && ev?.isNone then
    ([.logError evidenceRequiredMsg], 1)
  else if args.run_local && evidenceCloudOnly ev? then
    ([.logError runLocalCloudOnlyMsg], 1)
  else
    let tr :=
      if args.run_local && ev?.isSome then
        [Event.runLocalTask args.task req?,
         Event.logInfo ("Task execution result: " ++ w.task_result)]
      else []
    (tr ++ [.logInfo doneMsg], 0)

/-- The body of `turbiniactl.main` after argument parsing (lines 306-551),
as the composition of its stages; every invocation yields the full event
trace up to the terminating `sys.exit`. -/
def runMain (args : Args) (cfg : Config) (w : World) : Outcome :=
  let tr0 : List Event := [.logInfo ("Turbinia version: " ++ w.version)]
  match jobsCheck args with
  | .exit t c => ⟨tr0 ++ t, c⟩
  | .cont t1 _ =>
    match filterStage args w with
    | .exit t c => ⟨tr0 ++ t1 ++ t, c⟩
    | .cont t2 fp =>
      match roleChecks args with
      | .exit t c => ⟨tr0 ++ t1 ++ t2 ++ t, c⟩
      | .cont t3 _ =>
        match commandStage args w with
        | .exit t c => ⟨tr0 ++ t1 ++ t2 ++ t3 ++ t, c⟩
        | .cont t4 ev? =>
          match compatGate args cfg ev? with
          | .exit t c => ⟨tr0 ++ t1 ++ t2 ++ t3 ++ t4 ++ t, c⟩
          | .cont t5 _ =>
            match projectCheck args cfg ev? with
            | .exit t c => ⟨tr0 ++ t1 ++ t2 ++ t3 ++ t4 ++ t5 ++ t, c⟩
            | .cont t6 _ =>
              match dispatchStage args w fp ev? with
              | .exit t c => ⟨tr0 ++ t1 ++ t2 ++ t3 ++ t4 ++ t5 ++ t6 ++ t, c⟩
              | .cont t7 req? =>
                let t8 := tailStage args w ev? req?
                ⟨tr0 ++ t1 ++ t2 ++ t3 ++ t4 ++ t5 ++ t6 ++ t7 ++ t8.1, t8.2⟩

/-- Substring containment, used to state what the request dump contains. -/
def strContains (s sub : String) : Prop :=
  ∃ a b : String, s = a ++ (sub ++ b)

/-- A standard world for concrete runs. -/
def wstd : World := {}

/-- A world whose working directory is `/home`. -/
def wHome : World := { cwd := "/home" }

/-- A world in which every file exists but every read fails. -/
def wReadFails : World :=
  { file_exists := fun _ => true, read_file := fun _ => .error "Permission denied" }

/-- Deployment with a shared filesystem. -/
def cfgShared : Config := { SHARED_FILESYSTEM := true, TURBINIA_PROJECT := "proj" }

/-- Cloud deployment (no shared filesystem). -/
def cfgCloud : Config := { SHARED_FILESYSTEM := false, TURBINIA_PROJECT := "proj" }

/-- A plain RawDisk invocation with an absolute path and no display name. -/
def argsRawdisk : Args := { cmd := some (.rawdisk "/data/img.dd" 1 none none) }

/-- A RawDisk invocation with a relative local path and no display name. -/
def argsRelRawdisk : Args := { cmd := some (.rawdisk "data/img.dd" 1 none none) }

/-- A RawDisk invocation asking for the dry-run JSON dump. -/
def argsRawdiskDump : Args :=
  { cmd := some (.rawdisk "/data/img.dd" 1 none none), dump_json := true }

/-- A cloud-disk invocation whose project matches the deployment project. -/
def argsCloudMatch : Args :=
  { cmd := some (.googleclouddisk "disk1" "proj" 0 "us-central1-f" none none) }

/-- Same cloud-disk invocation with `--force_evidence`. -/
def argsCloudMatchForce : Args :=
  { cmd := some (.googleclouddisk "disk1" "proj" 0 "us-central1-f" none none),
    force_evidence := true }

/-- A cloud-disk invocation whose project differs from the deployment. -/
def argsCloudOther : Args :=
  { cmd := some (.googleclouddisk "disk1" "proj-a" 0 "us-central1-f" none none) }

/-- Same foreign-project invocation with `--force_evidence`. -/
def argsCloudOtherForce : Args :=
  { cmd := some (.googleclouddisk "disk1" "proj-a" 0 "us-central1-f" none none),
    force_evidence := true }

/-- A status invocation with `--close_tasks` and `--wait` but no selector. -/
def argsStatusClose : Args :=
  { cmd := some (.status true 0 false none 20 false none none), wait := true }

/-- A plain status invocation with `--wait` and no request id. -/
def argsStatusWait : Args :=
  { cmd := some (.status false 0 false none 20 false none none), wait := true }

/-- A `--run_local` cloud-disk invocation asking for the JSON dump. -/
def argsRunLocalCloudDump : Args :=
  { cmd := some (.googleclouddisk "disk1" "proj" 0 "us-central1-f" none none),
    run_local := true, task := some "PlasoTask", dump_json := true,
    force_evidence := true }

/-- A `--run_local` cloud-disk invocation without the dump flag. -/
def argsRunLocalCloud : Args :=
  { cmd := some (.googleclouddisk "disk1" "proj" 0 "us-central1-f" none none),
    run_local := true, task := some "PlasoTask", force_evidence := true }

/-- An invocation supplying both job filters (whitelist from an empty CSV). -/
def argsEmptyWhitelist : Args :=
  { jobs_whitelist := csv_list "", jobs_blacklist := csv_list "StringsJob",
    cmd := some (.rawdisk "/data/img.dd" 1 none none) }

/-- An invocation naming a filter-patterns file. -/
def argsFilterFile : Args :=
  { filter_patterns_file := some "/tmp/filters.txt",
    cmd := some (.rawdisk "/data/img.dd" 1 none none) }

/-! Helper lemmas shared by the claim theorems. -/

theorem splitOnChar_length_pos (c : Char) (l : List Char) :
    0 < (splitOnChar c l).length := by
  induction l with
  | nil => simp [splitOnChar]
  | cons x xs ih =>
    simp only [splitOnChar]
    split
    · simp
    · split
      · simp
      · simp

theorem csv_list_length_pos (s : String) : 0 < (csv_list s).length := by
  unfold csv_list pySplit
  simpa using splitOnChar_length_pos ',' s.data

theorem strContains_intro (s sub a b : String) (h : s = a ++ (sub ++ b)) :
    strContains s sub :=
  ⟨a, b, h⟩

theorem intercalate_singleton (sep x : String) :
    String.intercalate sep [x] = x := by
  simp [String.intercalate, String.intercalate.go]

theorem to_json_contains_name (r : TurbiniaRequest) (ev : Evidence)
    (h : r.evidence = [ev]) : strContains r.to_json ev.name := by
  refine strContains_intro _ _
    ("\x7b\"request_id\": \"" ++ r.request_id ++
      "\", \"requester\": \"" ++ r.requester ++ "\", \"evidence\": [" ++ "\x7b\"name\": \"")
    ("\", \"type\": \"" ++ ev.type ++ "\"\x7d" ++
      ("], \"recipe\": " ++ Recipe.render r.recipe ++ "\x7d")) ?_
  simp only [TurbiniaRequest.to_json, h, List.map_cons, List.map_nil,
    intercalate_singleton, renderEvidence, String.append_assoc]

theorem to_json_contains_recipe (r : TurbiniaRequest) :
    strContains r.to_json (Recipe.render r.recipe) := by
  refine strContains_intro _ _
    ("\x7b\"request_id\": \"" ++ r.request_id ++
      "\", \"requester\": \"" ++ r.requester ++ "\", \"evidence\": [" ++
      String.intercalate ", " (r.evidence.map renderEvidence) ++ "], \"recipe\": ")
    "\x7d" ?_
  simp only [TurbiniaRequest.to_json, String.append_assoc]

theorem sendRequest_not_mem_jobsCheck (args : Args) (r : TurbiniaRequest) :
    Event.sendRequest r ∉ (jobsCheck args).trace := by
  unfold jobsCheck
  split <;> simp [StepRes.trace]

theorem sendRequest_not_mem_filterStage (args : Args) (w : World) (r : TurbiniaRequest) :
    Event.sendRequest r ∉ (filterStage args w).trace := by
  unfold filterStage
  split
  · simp [StepRes.trace]
  · split
    · split <;> simp [StepRes.trace]
    · simp [StepRes.trace]

theorem sendRequest_not_mem_roleChecks (args : Args) (r : TurbiniaRequest) :
    Event.sendRequest r ∉ (roleChecks args).trace := by
  unfold roleChecks
  split <;> try split
  all_goals simp [StepRes.trace]

theorem sendRequest_not_mem_statusBody (args : Args) (ct : Bool) (days : Int)
    (rid : Option String) (pf : Int) (fr : Bool) (tid u : Option String)
    (r : TurbiniaRequest) :
    Event.sendRequest r ∉ (statusBody args ct days rid pf fr tid u).trace := by
  unfold statusBody
  split
  · split <;> simp [StepRes.trace]
  · split
    · simp [StepRes.trace]
    · split <;> simp [StepRes.trace]

theorem sendRequest_not_mem_commandStage (args : Args) (w : World) (r : TurbiniaRequest) :
    Event.sendRequest r ∉ (commandStage args w).trace := by
  rcases hc : args.cmd with _ | c
  · simp [commandStage, hc, StepRes.trace]
  · cases c
    case status ct days force rid pf fr tid u =>
      simp only [commandStage, hc]
      exact sendRequest_not_mem_statusBody args ct days rid pf fr tid u r
    all_goals
      simp only [commandStage, hc]
      first
      | (split <;> simp [StepRes.trace])
      | simp [StepRes.trace]

theorem sendRequest_not_mem_compatGate (args : Args) (cfg : Config)
    (ev? : Option Evidence) (r : TurbiniaRequest) :
    Event.sendRequest r ∉ (compatGate args cfg ev?).trace := by
  unfold compatGate
  rcases ev? with _ | ev
  · simp [StepRes.trace]
  · repeat' split
    all_goals simp [StepRes.trace]

theorem sendRequest_not_mem_projectCheck (args : Args) (cfg : Config)
    (ev? : Option Evidence) (r : TurbiniaRequest) :
    Event.sendRequest r ∉ (projectCheck args cfg ev?).trace := by
  unfold projectCheck
  repeat' split
  all_goals simp [StepRes.trace]

theorem constructRequest_not_mem_jobsCheck (args : Args) (r : TurbiniaRequest) :
    Event.constructRequest r ∉ (jobsCheck args).trace := by
  unfold jobsCheck
  split <;> simp [StepRes.trace]

theorem constructRequest_not_mem_filterStage (args : Args) (w : World) (r : TurbiniaRequest) :
    Event.constructRequest r ∉ (filterStage args w).trace := by
  unfold filterStage
  repeat' split
  all_goals simp [StepRes.trace]

theorem constructRequest_not_mem_roleChecks (args : Args) (r : TurbiniaRequest) :
    Event.constructRequest r ∉ (roleChecks args).trace := by
  unfold roleChecks
  repeat' split
  all_goals simp [StepRes.trace]

theorem constructRequest_not_mem_statusBody (args : Args) (ct : Bool) (days : Int)
    (rid : Option String) (pf : Int) (fr : Bool) (tid u : Option String)
    (r : TurbiniaRequest) :
    Event.constructRequest r ∉ (statusBody args ct days rid pf fr tid u).trace := by
  unfold statusBody
  repeat' split
  all_goals simp [StepRes.trace]

theorem constructRequest_not_mem_commandStage (args : Args) (w : World) (r : TurbiniaRequest) :
    Event.constructRequest r ∉ (commandStage args w).trace := by
  rcases hc : args.cmd with _ | c
  · simp [commandStage, hc, StepRes.trace]
  · cases c
    case status ct days force rid pf fr tid u =>
      simp only [commandStage, hc]
      exact constructRequest_not_mem_statusBody args ct days rid pf fr tid u r
    all_goals
      simp only [commandStage, hc]
      first
      | (split <;> simp [StepRes.trace])
      | simp [StepRes.trace]

theorem constructRequest_not_mem_compatGate (args : Args) (cfg : Config)
    (ev? : Option Evidence) (r : TurbiniaRequest) :
    Event.constructRequest r ∉ (compatGate args cfg ev?).trace := by
  unfold compatGate
  rcases ev? with _ | ev
  · simp [StepRes.trace]
  · repeat' split
    all_goals simp [StepRes.trace]

theorem constructRequest_not_mem_projectCheck (args : Args) (cfg : Config)
    (ev? : Option Evidence) (r : TurbiniaRequest) :
    Event.constructRequest r ∉ (projectCheck args cfg ev?).trace := by
  unfold projectCheck
  repeat' split
  all_goals simp [StepRes.trace]

theorem constructRequest_not_mem_tailStage (args : Args) (w : World)
    (ev? : Option Evidence) (req? : Option TurbiniaRequest) (r : TurbiniaRequest) :
    Event.constructRequest r ∉ (tailStage args w ev? req?).1 := by
  unfold tailStage
  repeat' split
  all_goals simp

theorem jobsCheck_cont (args : Args) (t : List Event) (v : Unit)
    (h : jobsCheck args = StepRes.cont t v) :
    (args.jobs_whitelist.isEmpty || args.jobs_blacklist.isEmpty) = true := by
  unfold jobsCheck at h
  split at h
  · cases h
  · rename_i hcond
    rcases hwl : args.jobs_whitelist.isEmpty
    all_goals rcases hbl : args.jobs_blacklist.isEmpty
    all_goals simp_all

theorem constructRequest_mem_dispatchStage (args : Args) (w : World)
    (fp : Option (List String)) (ev? : Option Evidence) (r : TurbiniaRequest)
    (h : Event.constructRequest r ∈ (dispatchStage args w fp ev?).trace) :
    r.recipe = buildRecipe args fp := by
  rcases ev? with _ | ev
  · simp [dispatchStage, StepRes.trace] at h
  · unfold dispatchStage at h
    repeat' split at h
    all_goals simp [StepRes.trace] at h
    all_goals rcases h with h | h
    all_goals simp_all

/-! Claim theorems. -/

/-- C1 is false as stated: with `shared_filesystem=true` and non-cloud
evidence (a RawDisk, `force_evidence` unset) the operation does not fail at
the compatibility gate at all — it completes with exit code 0. -/
theorem C1_counterexample :
    cfgShared.SHARED_FILESYSTEM = true ∧
    argsRawdisk.force_evidence = false ∧
    Event.constructEvidence (Evidence.rawDisk "/data/img.dd" "/data/img.dd" 1 none)
        ∈ (runMain argsRawdisk cfgShared wstd).events ∧
    (Evidence.rawDisk "/data/img.dd" "/data/img.dd" 1 none).cloud_only = false ∧
    (runMain argsRawdisk cfgShared wstd).code = 0 := by
  decide

/-- C1 (amended): with `shared_filesystem=true` the compatibility gate
rejects CLOUD-ONLY evidence, fatally (exit 1); and the gate only runs when
`force_evidence` is unset — with the flag set the same invocation proceeds
and exits 0. -/
theorem C1_amended_thm (args : Args) (cfg : Config) (w : World)
    (dn proj : String) (mp : Int) (zone : String) (src nm : Option String)
    (hcmd : args.cmd = some (.googleclouddisk dn proj mp zone src nm))
    (hwl : args.jobs_whitelist = [])
    (hfpf : args.filter_patterns_file = none)
    (hrl : args.run_local = false)
    (hserver : args.server = false)
    (hdump : args.dump_json = false)
    (hSF : cfg.SHARED_FILESYSTEM = true)
    (hproj : proj = cfg.TURBINIA_PROJECT) :
    (args.force_evidence = false →
      (runMain args cfg w).code = 1 ∧
      Event.logError (cloudOnlyMsg "GoogleCloudDisk") ∈ (runMain args cfg w).events) ∧
    (args.force_evidence = true → (runMain args cfg w).code = 0) := by
  constructor
  · intro hforce
    simp [runMain, jobsCheck, filterStage, roleChecks, commandStage, compatGate,
      truthy, hcmd, hwl, hfpf, hrl, hserver, hdump, hSF, hforce,
      Evidence.cloud_only, Evidence.type]
  · intro hforce
    simp [runMain, jobsCheck, filterStage, roleChecks, commandStage, compatGate,
      projectCheck, dispatchStage, tailStage, buildRecipe, truthy,
      hcmd, hwl, hfpf, hrl, hserver, hdump, hSF, hproj, hforce,
      Evidence.cloud_only, Evidence.type, is_cloud_disk, evidenceProject,
      Evidence.project, evidenceCloudOnly]

/-- Witness for C1_amended_thm at a concrete cloud-disk invocation under a
shared-filesystem deployment. -/
theorem C1_amended_witness :
    (runMain argsCloudMatch cfgShared wstd).code = 1 ∧
    Event.logError (cloudOnlyMsg "GoogleCloudDisk")
        ∈ (runMain argsCloudMatch cfgShared wstd).events :=
  (C1_amended_thm argsCloudMatch cfgShared wstd "disk1" "proj" 0 "us-central1-f"
    none none rfl rfl rfl rfl rfl rfl rfl rfl).1 rfl

/-- C2 is false as stated: with `shared_filesystem=false` and cloud_only
evidence (project matching the deployment, `force_evidence` unset) the
operation passes the gate and completes with exit code 0. -/
theorem C2_counterexample :
    cfgCloud.SHARED_FILESYSTEM = false ∧
    argsCloudMatch.force_evidence = false ∧
    Event.constructEvidence
        (Evidence.googleCloudDisk "disk1" "disk1" "proj" 0 "us-central1-f" none)
        ∈ (runMain argsCloudMatch cfgCloud wstd).events ∧
    (Evidence.googleCloudDisk "disk1" "disk1" "proj" 0 "us-central1-f" none).cloud_only
        = true ∧
    (runMain argsCloudMatch cfgCloud wstd).code = 0 := by
  decide

/-- C2 (amended): with `shared_filesystem=false` the compatibility gate
rejects NON-cloud evidence, fatally (exit 1) and with the
wrap-in-a-cloud-embedded-disk guidance; the gate only runs when
`force_evidence` is unset — with the flag set the invocation proceeds and
exits 0. -/
theorem C2_amended_thm (args : Args) (cfg : Config) (w : World)
    (lp : String) (mp : Int) (src nm : Option String)
    (hcmd : args.cmd = some (.rawdisk lp mp src nm))
    (hwl : args.jobs_whitelist = [])
    (hfpf : args.filter_patterns_file = none)
    (hrl : args.run_local = false)
    (hserver : args.server = false)
    (hdump : args.dump_json = false)
    (hSF : cfg.SHARED_FILESYSTEM = false) :
    (args.force_evidence = false →
      (runMain args cfg w).code = 1 ∧
      Event.logError (notCloudCapableMsg "RawDisk") ∈ (runMain args cfg w).events) ∧
    (args.force_evidence = true → (runMain args cfg w).code = 0) := by
  constructor
  · intro hforce
    simp [runMain, jobsCheck, filterStage, roleChecks, commandStage, compatGate,
      truthy, hcmd, hwl, hfpf, hrl, hserver, hdump, hSF, hforce,
      Evidence.cloud_only, Evidence.type]
  · intro hforce
    simp [runMain, jobsCheck, filterStage, roleChecks, commandStage, compatGate,
      projectCheck, dispatchStage, tailStage, buildRecipe, truthy,
      hcmd, hwl, hfpf, hrl, hserver, hdump, hSF, hforce,
      Evidence.cloud_only, Evidence.type, is_cloud_disk, evidenceProject,
      Evidence.project, evidenceCloudOnly]

/-- Witness for C2_amended_thm at a concrete RawDisk invocation under a
cloud deployment. -/
theorem C2_amended_witness :
    (runMain argsRawdisk cfgCloud wstd).code = 1 ∧
    Event.logError (notCloudCapableMsg "RawDisk")
        ∈ (runMain argsRawdisk cfgCloud wstd).events :=
  (C2_amended_thm argsRawdisk cfgCloud wstd "/data/img.dd" 1 none none
    rfl rfl rfl rfl rfl rfl rfl).1 rfl

/-- C3: for a cloud-disk invocation whose evidence project differs from the
deployment project (reaching the cross-project check: compatible deployment,
no earlier fatal condition), `force_evidence=false` is fatal (exit 1) with
the force-suggesting message and no submission happens, while
`force_evidence=true` logs the warning and proceeds to dispatch the
request. -/
theorem C3_thm (args : Args) (cfg : Config) (w : World)
    (dn proj : String) (mp : Int) (zone : String) (src nm : Option String)
    (hcmd : args.cmd = some (.googleclouddisk dn proj mp zone src nm))
    (hproj : proj ≠ cfg.TURBINIA_PROJECT)
    (hwl : args.jobs_whitelist = [])
    (hfpf : args.filter_patterns_file = none)
    (hrl : args.run_local = false)
    (hserver : args.server = false)
    (hdump : args.dump_json = false)
    (hSF : cfg.SHARED_FILESYSTEM = false) :
    (args.force_evidence = false →
      (runMain args cfg w).code = 1 ∧
      Event.logError (projectMismatchMsg cfg.TURBINIA_PROJECT proj ++ forceSuggestionMsg)
          ∈ (runMain args cfg w).events ∧
      ∀ r : TurbiniaRequest, Event.sendRequest r ∉ (runMain args cfg w).events) ∧
    (args.force_evidence = true →
      (runMain args cfg w).code = 0 ∧
      Event.logWarning (projectMismatchMsg cfg.TURBINIA_PROJECT proj)
          ∈ (runMain args cfg w).events ∧
      ∃ r : TurbiniaRequest, Event.sendRequest r ∈ (runMain args cfg w).events) := by
  constructor
  · intro hforce
    simp [runMain, jobsCheck, filterStage, roleChecks, commandStage, compatGate,
      projectCheck, truthy, hcmd, hwl, hfpf, hrl, hserver, hdump, hSF, hforce, hproj,
      Evidence.cloud_only, Evidence.type, is_cloud_disk, evidenceProject,
      Evidence.project]
  · intro hforce
    simp [runMain, jobsCheck, filterStage, roleChecks, commandStage, compatGate,
      projectCheck, dispatchStage, tailStage, buildRecipe, truthy,
      hcmd, hwl, hfpf, hrl, hserver, hdump, hSF, hforce, hproj,
      Evidence.cloud_only, Evidence.type, is_cloud_disk, evidenceProject,
      Evidence.project, evidenceCloudOnly]

/-- Witness for C3_thm at a concrete foreign-project cloud-disk invocation
without force. -/
theorem C3_witness :
    (runMain argsCloudOther cfgCloud wstd).code = 1 ∧
    Event.logError (projectMismatchMsg "proj" "proj-a" ++ forceSuggestionMsg)
        ∈ (runMain argsCloudOther cfgCloud wstd).events ∧
    ∀ r : TurbiniaRequest,
      Event.sendRequest r ∉ (runMain argsCloudOther cfgCloud wstd).events :=
  (C3_thm argsCloudOther cfgCloud wstd "disk1" "proj-a" 0 "us-central1-f" none none
    rfl (by decide) rfl rfl rfl rfl rfl rfl).1 rfl

theorem mem_commandStage_runMain (args : Args) (cfg : Config) (w : World)
    (t2 t4 : List Event) (fp : Option (List String)) (ev? : Option Evidence) (e : Event)
    (hjobs : jobsCheck args = StepRes.cont [] ())
    (hfilter : filterStage args w = StepRes.cont t2 fp)
    (hrole : roleChecks args = StepRes.cont [] ())
    (hcmd : commandStage args w = StepRes.cont t4 ev?)
    (he : e ∈ t4) :
    e ∈ (runMain args cfg w).events := by
  unfold runMain
  rw [hjobs, hfilter, hrole, hcmd]
  rcases hg : compatGate args cfg ev? with ⟨t, c⟩ | ⟨t5, v5⟩
  · simp [hg, he]
  · rcases hp : projectCheck args cfg ev? with ⟨t, c⟩ | ⟨t6, v6⟩
    · simp [hg, hp, he]
    · rcases hd : dispatchStage args w fp ev? with ⟨t, c⟩ | ⟨t7, req?⟩
      · simp [hg, hp, hd, he]
      · simp [hg, hp, hd, he]

/-- C4 is false as stated: with evidence present, the server flag unset and
`dump_json` set, the compatibility gate can still abort first — a RawDisk
dump request on a `shared_filesystem=false` deployment exits 1 and prints no
dump. -/
theorem C4_counterexample :
    argsRawdiskDump.dump_json = true ∧
    argsRawdiskDump.server = false ∧
    Event.constructEvidence (Evidence.rawDisk "/data/img.dd" "/data/img.dd" 1 none)
        ∈ (runMain argsRawdiskDump cfgCloud wstd).events ∧
    (runMain argsRawdiskDump cfgCloud wstd).code = 1 ∧
    ((runMain argsRawdiskDump cfgCloud wstd).events.all
      (fun e => match e with | Event.printOut _ => false | _ => true)) = true := by
  decide

/-- C4 (amended): with evidence present, the server flag unset, `dump_json`
set and the compatibility gate and cross-project check passing, the process
exits 0 after printing the request serialization (which contains the
evidence's name and the full recipe rendering) and `send_request` is never
invoked. -/
theorem C4_amended_thm (args : Args) (cfg : Config) (w : World)
    (t2 : List Event) (fp : Option (List String)) (t4 : List Event) (ev : Evidence)
    (t6 : List Event)
    (hjobs : jobsCheck args = StepRes.cont [] ())
    (hfilter : filterStage args w = StepRes.cont t2 fp)
    (hrole : roleChecks args = StepRes.cont [] ())
    (hcmd : commandStage args w = StepRes.cont t4 (some ev))
    (hgate : compatGate args cfg (some ev) = StepRes.cont [] ())
    (hproj : projectCheck args cfg (some ev) = StepRes.cont t6 ())
    (hserver : args.server = false)
    (hdump : args.dump_json = true) :
    (runMain args cfg w).code = 0 ∧
    (∃ req : TurbiniaRequest, req.evidence = [ev] ∧
      req.recipe = buildRecipe args fp ∧
      Event.printOut req.to_json ∈ (runMain args cfg w).events ∧
      strContains req.to_json ev.name ∧
      strContains req.to_json (Recipe.render req.recipe)) ∧
    ∀ r : TurbiniaRequest, Event.sendRequest r ∉ (runMain args cfg w).events := by
  refine ⟨?_, ?_, ?_⟩
  · simp [runMain, hjobs, hfilter, hrole, hcmd, hgate, hproj, dispatchStage,
      hserver, hdump]
  · refine ⟨{ request_id := if truthy args.request_id then args.request_id.getD ""
                else w.gen_request_id,
              requester := w.username, evidence := [ev],
              recipe := buildRecipe args fp }, rfl, rfl, ?_, ?_, ?_⟩
    · simp [runMain, hjobs, hfilter, hrole, hcmd, hgate, hproj, dispatchStage,
        hserver, hdump]
    · exact to_json_contains_name _ ev rfl
    · exact to_json_contains_recipe _
  · intro r
    have h2 := sendRequest_not_mem_filterStage args w r
    have h4 := sendRequest_not_mem_commandStage args w r
    have h6 := sendRequest_not_mem_projectCheck args cfg (some ev) r
    rw [hfilter] at h2
    rw [hcmd] at h4
    rw [hproj] at h6
    simp only [StepRes.trace] at h2 h4 h6
    simp [runMain, hjobs, hfilter, hrole, hcmd, hgate, hproj, dispatchStage,
      hserver, hdump, h2, h4, h6]

/-- Witness for C4_amended_thm: a RawDisk dump request on a
shared-filesystem deployment. -/
theorem C4_amended_witness :
    (runMain argsRawdiskDump cfgShared wstd).code = 0 ∧
    (∃ req : TurbiniaRequest,
      req.evidence = [Evidence.rawDisk "/data/img.dd" "/data/img.dd" 1 none] ∧
      req.recipe = buildRecipe argsRawdiskDump none ∧
      Event.printOut req.to_json ∈ (runMain argsRawdiskDump cfgShared wstd).events ∧
      strContains req.to_json (Evidence.rawDisk "/data/img.dd" "/data/img.dd" 1 none).name ∧
      strContains req.to_json (Recipe.render req.recipe)) ∧
    ∀ r : TurbiniaRequest,
      Event.sendRequest r ∉ (runMain argsRawdiskDump cfgShared wstd).events :=
  C4_amended_thm argsRawdiskDump cfgShared wstd [] none
    [Event.constructEvidence (Evidence.rawDisk "/data/img.dd" "/data/img.dd" 1 none)]
    (Evidence.rawDisk "/data/img.dd" "/data/img.dd" 1 none) []
    rfl rfl rfl rfl rfl rfl rfl rfl

/-- C5 is false as stated: for a RawDisk command with relative
`local_path=data/img.dd` (cwd `/home`) and no display name, the constructed
Evidence has `name = "data/img.dd"` — the supplied path verbatim — which
differs from its absolute-path normalization `/home/data/img.dd`; only the
stored `local_path` is normalized. -/
theorem C5_counterexample :
    Event.constructEvidence (Evidence.rawDisk "data/img.dd" "/home/data/img.dd" 1 none)
        ∈ (runMain argsRelRawdisk cfgShared wHome).events ∧
    (Evidence.rawDisk "data/img.dd" "/home/data/img.dd" 1 none).name = "data/img.dd" ∧
    abspath "/home" "data/img.dd" = "/home/data/img.dd" ∧
    ("data/img.dd" : String) ≠ "/home/data/img.dd" := by
  decide

/-- C5 (amended): a defaulted name equals the variant's primary identifying
field exactly as supplied (`local_path` verbatim for RawDisk, `disk_name`
for cloud disks) — absolute-path normalization is applied to the stored
`local_path` attribute, not to the defaulted name; RawDisk evidence has
`cloud_only = false`. -/
theorem C5_amended_thm (args : Args) (cfg : Config) (w : World)
    (lp : String) (mp : Int) (src : Option String)
    (hcmd : args.cmd = some (.rawdisk lp mp src none))
    (hwl : args.jobs_whitelist = [])
    (hfpf : args.filter_patterns_file = none)
    (hrl : args.run_local = false)
    (args2 : Args) (dn proj : String) (mp2 : Int) (zone : String) (src2 : Option String)
    (hcmd2 : args2.cmd = some (.googleclouddisk dn proj mp2 zone src2 none))
    (hwl2 : args2.jobs_whitelist = [])
    (hfpf2 : args2.filter_patterns_file = none)
    (hrl2 : args2.run_local = false) :
    (Event.constructEvidence (Evidence.rawDisk lp (abspath w.cwd lp) mp src)
        ∈ (runMain args cfg w).events ∧
      (Evidence.rawDisk lp (abspath w.cwd lp) mp src).name = lp ∧
      (Evidence.rawDisk lp (abspath w.cwd lp) mp src).cloud_only = false) ∧
    (Event.constructEvidence (Evidence.googleCloudDisk dn dn proj mp2 zone src2)
        ∈ (runMain args2 cfg w).events ∧
      (Evidence.googleCloudDisk dn dn proj mp2 zone src2).name = dn) := by
  refine ⟨⟨?_, rfl, rfl⟩, ⟨?_, rfl⟩⟩
  · exact mem_commandStage_runMain args cfg w []
      [Event.constructEvidence (Evidence.rawDisk lp (abspath w.cwd lp) mp src)] none
      (some (Evidence.rawDisk lp (abspath w.cwd lp) mp src))
      (Event.constructEvidence (Evidence.rawDisk lp (abspath w.cwd lp) mp src))
      (by simp [jobsCheck, hwl]) (by simp [filterStage, hfpf, truthy])
      (by simp [roleChecks, hrl]) (by simp [commandStage, hcmd, truthy]) (by simp)
  · exact mem_commandStage_runMain args2 cfg w []
      [Event.constructEvidence (Evidence.googleCloudDisk dn dn proj mp2 zone src2)] none
      (some (Evidence.googleCloudDisk dn dn proj mp2 zone src2))
      (Event.constructEvidence (Evidence.googleCloudDisk dn dn proj mp2 zone src2))
      (by simp [jobsCheck, hwl2]) (by simp [filterStage, hfpf2, truthy])
      (by simp [roleChecks, hrl2]) (by simp [commandStage, hcmd2, truthy]) (by simp)

/-- Witness for C5_amended_thm at a relative-path RawDisk invocation and a
concrete cloud-disk invocation. -/
theorem C5_amended_witness :
    (Event.constructEvidence
        (Evidence.rawDisk "data/img.dd" (abspath "/home" "data/img.dd") 1 none)
        ∈ (runMain argsRelRawdisk cfgShared wHome).events ∧
      (Evidence.rawDisk "data/img.dd" (abspath "/home" "data/img.dd") 1 none).name
        = "data/img.dd" ∧
      (Evidence.rawDisk "data/img.dd" (abspath "/home" "data/img.dd") 1 none).cloud_only
        = false) ∧
    (Event.constructEvidence
        (Evidence.googleCloudDisk "disk1" "disk1" "proj" 0 "us-central1-f" none)
        ∈ (runMain argsCloudMatch cfgShared wHome).events ∧
      (Evidence.googleCloudDisk "disk1" "disk1" "proj" 0 "us-central1-f" none).name
        = "disk1") :=
  C5_amended_thm argsRelRawdisk cfgShared wHome "data/img.dd" 1 none rfl rfl rfl rfl
    argsCloudMatch "disk1" "proj" 0 "us-central1-f" none rfl rfl rfl rfl

/-- C7: naming a filter-patterns file that does not exist is fatal (exit 1);
naming one that exists but whose read raises an I/O error only logs a
warning, and the invocation proceeds (exit 0, request dispatched) with no
`filter_patterns` set on the recipe. -/
theorem C7_thm (args : Args) (cfg : Config) (w : World)
    (f lp : String) (mp : Int) (src nm : Option String)
    (hf : args.filter_patterns_file = some f)
    (hft : f.isEmpty = false)
    (hwl : args.jobs_whitelist = [])
    (hcmd : args.cmd = some (.rawdisk lp mp src nm))
    (hrl : args.run_local = false)
    (hserver : args.server = false)
    (hdump : args.dump_json = false)
    (hSF : cfg.SHARED_FILESYSTEM = true)
    (hforce : args.force_evidence = false) :
    (w.file_exists f = false →
      (runMain args cfg w).code = 1 ∧
      Event.logError filterMissingMsg ∈ (runMain args cfg w).events) ∧
    (∀ e : String, w.file_exists f = true → w.read_file f = .error e →
      (runMain args cfg w).code = 0 ∧
      Event.logWarning (cannotOpenMsg f e) ∈ (runMain args cfg w).events ∧
      ∃ r : TurbiniaRequest,
        Event.sendRequest r ∈ (runMain args cfg w).events ∧
        r.recipe.filter_patterns = none) := by
  constructor
  · intro hex
    constructor
    · simp [runMain, jobsCheck, filterStage, truthy, hf, hft, hex, hwl]
    · simp [runMain, jobsCheck, filterStage, truthy, hf, hft, hex, hwl]
  · intro e hex hread
    refine ⟨?_, ?_, ?_⟩
    · simp [runMain, jobsCheck, filterStage, roleChecks, commandStage, compatGate,
        projectCheck, dispatchStage, tailStage, buildRecipe, truthy, hf, hft, hex,
        hread, hwl, hcmd, hrl, hserver, hdump, hSF, hforce, Evidence.cloud_only,
        Evidence.type, is_cloud_disk, evidenceProject, Evidence.project,
        evidenceCloudOnly]
    · simp [runMain, jobsCheck, filterStage, roleChecks, commandStage, compatGate,
        projectCheck, dispatchStage, tailStage, buildRecipe, truthy, hf, hft, hex,
        hread, hwl, hcmd, hrl, hserver, hdump, hSF, hforce, Evidence.cloud_only,
        Evidence.type, is_cloud_disk, evidenceProject, Evidence.project,
        evidenceCloudOnly]
    · refine ⟨{ request_id := if truthy args.request_id then args.request_id.getD ""
                  else w.gen_request_id,
                requester := w.username,
                evidence := [Evidence.rawDisk (if truthy nm then nm.getD "" else lp)
                  (abspath w.cwd lp) mp src],
                recipe := buildRecipe args none }, ?_, by simp [buildRecipe]⟩
      simp [runMain, jobsCheck, filterStage, roleChecks, commandStage, compatGate,
        projectCheck, dispatchStage, tailStage, truthy, hf, hft, hex,
        hread, hwl, hcmd, hrl, hserver, hdump, hSF, hforce, Evidence.cloud_only,
        Evidence.type, is_cloud_disk, evidenceProject, Evidence.project,
        evidenceCloudOnly]

/-- Witness for C7_thm: the missing-file tier at a concrete invocation whose
world has no files. -/
theorem C7_witness :
    (runMain argsFilterFile cfgShared wstd).code = 1 ∧
    Event.logError filterMissingMsg ∈ (runMain argsFilterFile cfgShared wstd).events :=
  (C7_thm argsFilterFile cfgShared wstd "/tmp/filters.txt" "/data/img.dd" 1 none none
    rfl rfl rfl rfl rfl rfl rfl rfl rfl).1 rfl

theorem jobsCheck_exit_code (args : Args) (t : List Event) (c : Nat)
    (h : jobsCheck args = StepRes.exit t c) : c = 1 := by
  unfold jobsCheck at h
  split at h <;> simp_all

theorem filterStage_exit_code (args : Args) (w : World) (t : List Event) (c : Nat)
    (h : filterStage args w = StepRes.exit t c) : c = 1 := by
  unfold filterStage at h
  repeat' split at h
  all_goals simp_all

theorem roleChecks_exit_code (args : Args) (t : List Event) (c : Nat)
    (h : roleChecks args = StepRes.exit t c) : c = 1 := by
  unfold roleChecks at h
  repeat' split at h
  all_goals simp_all

theorem compatGate_exit_code (args : Args) (cfg : Config) (ev? : Option Evidence)
    (t : List Event) (c : Nat) (h : compatGate args cfg ev? = StepRes.exit t c) :
    c = 1 := by
  unfold compatGate at h
  rcases ev? with _ | ev
  · simp_all
  · repeat' split at h
    all_goals simp_all

theorem projectCheck_exit_code (args : Args) (cfg : Config) (ev? : Option Evidence)
    (t : List Event) (c : Nat) (h : projectCheck args cfg ev? = StepRes.exit t c) :
    c = 1 := by
  unfold projectCheck at h
  repeat' split at h
  all_goals simp_all

theorem dispatchStage_exit_dump (args : Args) (w : World) (fp : Option (List String))
    (ev? : Option Evidence) (t : List Event) (c : Nat)
    (h : dispatchStage args w fp ev? = StepRes.exit t c) :
    args.dump_json = true := by
  unfold dispatchStage at h
  rcases ev? with _ | ev
  · simp_all
  · repeat' split at h
    all_goals simp_all

/-- C8 is false as stated: a `run_local` invocation with cloud_only evidence
and a task name exits 0 when `dump_json` is set — the dump step exits before
the run_local/cloud_only check. -/
theorem C8_counterexample :
    argsRunLocalCloudDump.run_local = true ∧
    truthy argsRunLocalCloudDump.task = true ∧
    argsRunLocalCloudDump.dump_json = true ∧
    Event.constructEvidence
        (Evidence.googleCloudDisk "disk1" "disk1" "proj" 0 "us-central1-f" none)
        ∈ (runMain argsRunLocalCloudDump cfgCloud wstd).events ∧
    (Evidence.googleCloudDisk "disk1" "disk1" "proj" 0 "us-central1-f" none).cloud_only
        = true ∧
    (runMain argsRunLocalCloudDump cfgCloud wstd).code = 0 := by
  decide

/-- C8 (amended): every invocation that constructs a cloud_only Evidence
entity with `run_local` set and `dump_json` unset fails fatally with exit
code 1 (at the latest at the run_local/cloud_only check, regardless of task
name, force flag, deployment mode or project). -/
theorem C8_amended_thm (args : Args) (cfg : Config) (w : World)
    (t4 : List Event) (ev : Evidence)
    (hcmd : commandStage args w = StepRes.cont t4 (some ev))
    (hco : ev.cloud_only = true)
    (hrl : args.run_local = true)
    (hdump : args.dump_json = false) :
    (runMain args cfg w).code = 1 := by
  unfold runMain
  rcases hj : jobsCheck args with ⟨t, c⟩ | ⟨t1, v1⟩
  · simp [hj, jobsCheck_exit_code args t c hj]
  · rcases hfil : filterStage args w with ⟨t, c⟩ | ⟨t2, fp⟩
    · simp [hj, hfil, filterStage_exit_code args w t c hfil]
    · rcases hro : roleChecks args with ⟨t, c⟩ | ⟨t3, v3⟩
      · simp [hj, hfil, hro, roleChecks_exit_code args t c hro]
      · rcases hg : compatGate args cfg (some ev) with ⟨t, c⟩ | ⟨t5, v5⟩
        · simp [hj, hfil, hro, hcmd, hg, compatGate_exit_code args cfg (some ev) t c hg]
        · rcases hp : projectCheck args cfg (some ev) with ⟨t, c⟩ | ⟨t6, v6⟩
          · simp [hj, hfil, hro, hcmd, hg, hp,
              projectCheck_exit_code args cfg (some ev) t c hp]
          · rcases hd : dispatchStage args w fp (some ev) with ⟨t, c⟩ | ⟨t7, req?⟩
            · exact absurd (dispatchStage_exit_dump args w fp (some ev) t c hd)
                (by simp [hdump])
            · simp [hj, hfil, hro, hcmd, hg, hp, hd, tailStage, hrl,
                evidenceCloudOnly, hco]

/-- Witness for C8_amended_thm at a concrete `run_local` cloud-disk
invocation without the dump flag. -/
theorem C8_amended_witness :
    (runMain argsRunLocalCloud cfgCloud wstd).code = 1 :=
  C8_amended_thm argsRunLocalCloud cfgCloud wstd
    [Event.constructEvidence
      (Evidence.googleCloudDisk "disk1" "disk1" "proj" 0 "us-central1-f" none)]
    (Evidence.googleCloudDisk "disk1" "disk1" "proj" 0 "us-central1-f" none)
    rfl rfl rfl rfl

/-- C9 is false as stated: a status invocation with `wait` set, no request
id, and `close_tasks` set (without a selector) exits 1 at the close_tasks
guard — the status display never happens and the exit code is not 0. -/
theorem C9_counterexample :
    argsStatusClose.wait = true ∧
    (runMain argsStatusClose cfgShared wstd).code = 1 ∧
    ((runMain argsStatusClose cfgShared wstd).events.all
      (fun e => match e with
        | Event.formatTaskStatus _ _ _ _ _ _ _ => false
        | _ => true)) = true := by
  decide

@[simp] theorem truthy_none : truthy none = false := rfl

@[simp] theorem truthy_some (s : String) : truthy (some s) = !s.isEmpty := rfl

/-- C9 (amended): for a plain status invocation (`close_tasks` unset,
`run_local` unset, no earlier fatal validation) with `wait` set and no
request id, the completion waiter is skipped, the skip diagnostic is logged,
the status display still runs, and the process exits 0. -/
theorem C9_amended_thm (args : Args) (cfg : Config) (w : World)
    (days : Int) (frc : Bool) (rid : Option String) (pf : Int) (fr : Bool)
    (tid u : Option String)
    (hcmd : args.cmd = some (.status false days frc rid pf fr tid u))
    (hwait : args.wait = true)
    (hrid : truthy rid = false)
    (hwl : args.jobs_whitelist = [])
    (hfpf : args.filter_patterns_file = none)
    (hrl : args.run_local = false) :
    (runMain args cfg w).code = 0 ∧
    Event.logInfo waitNoRequestIdMsg ∈ (runMain args cfg w).events ∧
    Event.formatTaskStatus rid tid u days args.all_fields fr pf
        ∈ (runMain args cfg w).events ∧
    ∀ (rid2 : String) (u2 : Option String) (p2 : Nat),
      Event.waitForRequest rid2 u2 p2 ∉ (runMain args cfg w).events := by
  refine ⟨?_, ?_, ?_, ?_⟩ <;>
    simp [runMain, jobsCheck, filterStage, roleChecks, commandStage, statusBody,
      compatGate, projectCheck, dispatchStage, tailStage,
      hcmd, hwait, hrid, hwl, hfpf, hrl, is_cloud_disk, evidenceProject,
      evidenceCloudOnly]

/-- Witness for C9_amended_thm at a concrete plain status invocation with
`wait` and no request id. -/
theorem C9_amended_witness :
    (runMain argsStatusWait cfgShared wstd).code = 0 ∧
    Event.logInfo waitNoRequestIdMsg ∈ (runMain argsStatusWait cfgShared wstd).events ∧
    Event.formatTaskStatus none none none 0 argsStatusWait.all_fields false 20
        ∈ (runMain argsStatusWait cfgShared wstd).events ∧
    ∀ (rid2 : String) (u2 : Option String) (p2 : Nat),
      Event.waitForRequest rid2 u2 p2 ∉ (runMain argsStatusWait cfgShared wstd).events :=
  C9_amended_thm argsStatusWait cfgShared wstd 0 false none 20 false none none
    rfl rfl rfl rfl rfl rfl

/-- C6: if both `jobs_whitelist` and `jobs_blacklist` are non-empty the
invocation exits 1 before any Evidence (or Request) is constructed; and on
every invocation whatsoever, no constructed Request carries both a
`jobs_blacklist` and a `jobs_whitelist` in its recipe. -/
theorem C6_thm (args : Args) (cfg : Config) (w : World) :
    (args.jobs_whitelist ≠ [] ∧ args.jobs_blacklist ≠ [] →
      (runMain args cfg w).code = 1 ∧
      (∀ ev : Evidence, Event.constructEvidence ev ∉ (runMain args cfg w).events) ∧
      (∀ r : TurbiniaRequest, Event.constructRequest r ∉ (runMain args cfg w).events)) ∧
    (∀ r : TurbiniaRequest, Event.constructRequest r ∈ (runMain args cfg w).events →
      r.recipe.jobs_blacklist = none ∨ r.recipe.jobs_whitelist = none) := by
  constructor
  · intro hboth
    have h1 : args.jobs_whitelist.isEmpty = false := by
      cases h : args.jobs_whitelist with
      | nil => exact absurd h hboth.1
      | cons a l => rfl
    have h2 : args.jobs_blacklist.isEmpty = false := by
      cases h : args.jobs_blacklist with
      | nil => exact absurd h hboth.2
      | cons a l => rfl
    refine ⟨?_, ?_, ?_⟩ <;> simp [runMain, jobsCheck, h1, h2]
  · intro r hmem
    unfold runMain at hmem
    rcases hj : jobsCheck args with ⟨t1e, c1⟩ | ⟨t1, v1⟩
    · have hJ := constructRequest_not_mem_jobsCheck args r
      rw [hj] at hJ
      simp only [StepRes.trace] at hJ
      simp [hj, hJ] at hmem
    · have hJ := constructRequest_not_mem_jobsCheck args r
      rw [hj] at hJ
      simp only [StepRes.trace] at hJ
      simp only [hj] at hmem
      rcases hf : filterStage args w with ⟨t2e, c2⟩ | ⟨t2, fp⟩
      · have hF := constructRequest_not_mem_filterStage args w r
        rw [hf] at hF
        simp only [StepRes.trace] at hF
        simp [hf, hJ, hF] at hmem
      · have hF := constructRequest_not_mem_filterStage args w r
        rw [hf] at hF
        simp only [StepRes.trace] at hF
        simp only [hf] at hmem
        rcases hro : roleChecks args with ⟨t3e, c3⟩ | ⟨t3, v3⟩
        · have hR := constructRequest_not_mem_roleChecks args r
          rw [hro] at hR
          simp only [StepRes.trace] at hR
          simp [hro, hJ, hF, hR] at hmem
        · have hR := constructRequest_not_mem_roleChecks args r
          rw [hro] at hR
          simp only [StepRes.trace] at hR
          simp only [hro] at hmem
          rcases hcm : commandStage args w with ⟨t4e, c4⟩ | ⟨t4, ev?⟩
          · have hC := constructRequest_not_mem_commandStage args w r
            rw [hcm] at hC
            simp only [StepRes.trace] at hC
            simp [hcm, hJ, hF, hR, hC] at hmem
          · have hC := constructRequest_not_mem_commandStage args w r
            rw [hcm] at hC
            simp only [StepRes.trace] at hC
            simp only [hcm] at hmem
            rcases hg : compatGate args cfg ev? with ⟨t5e, c5⟩ | ⟨t5, v5⟩
            · have hG := constructRequest_not_mem_compatGate args cfg ev? r
              rw [hg] at hG
              simp only [StepRes.trace] at hG
              simp [hg, hJ, hF, hR, hC, hG] at hmem
            · have hG := constructRequest_not_mem_compatGate args cfg ev? r
              rw [hg] at hG
              simp only [StepRes.trace] at hG
              simp only [hg] at hmem
              rcases hp : projectCheck args cfg ev? with ⟨t6e, c6⟩ | ⟨t6, v6⟩
              · have hP := constructRequest_not_mem_projectCheck args cfg ev? r
                rw [hp] at hP
                simp only [StepRes.trace] at hP
                simp [hp, hJ, hF, hR, hC, hG, hP] at hmem
              · have hP := constructRequest_not_mem_projectCheck args cfg ev? r
                rw [hp] at hP
                simp only [StepRes.trace] at hP
                simp only [hp] at hmem
                have hD : Event.constructRequest r ∈ (dispatchStage args w fp ev?).trace →
                    r.recipe = buildRecipe args fp :=
                  constructRequest_mem_dispatchStage args w fp ev? r
                have hone := jobsCheck_cont args t1 v1 hj
                rcases hd : dispatchStage args w fp ev? with ⟨t7e, c7⟩ | ⟨t7, req?⟩
                · rw [hd] at hD
                  simp only [StepRes.trace] at hD
                  simp [hd, hJ, hF, hR, hC, hG, hP] at hmem
                  have hrec := hD hmem
                  rcases Bool.or_eq_true_iff.mp hone with h | h
                  · right
                    simp [hrec, buildRecipe, h]
                  · left
                    simp [hrec, buildRecipe, h]
                · rw [hd] at hD
                  simp only [StepRes.trace] at hD
                  have hT := constructRequest_not_mem_tailStage args w ev? req? r
                  simp [hd, hJ, hF, hR, hC, hG, hP, hT] at hmem
                  have hrec := hD hmem
                  rcases Bool.or_eq_true_iff.mp hone with h | h
                  · right
                    simp [hrec, buildRecipe, h]
                  · left
                    simp [hrec, buildRecipe, h]

/-- Witness for C6_thm: a concrete invocation supplying both job filters
exits 1. -/
theorem C6_witness :
    (runMain argsEmptyWhitelist cfgShared wstd).code = 1 :=
  ((C6_thm argsEmptyWhitelist cfgShared wstd).1 ⟨by decide, by decide⟩).1

/-- C10: `csv_list` returns the comma-split list of its input, which is
never empty; an empty string yields `[""]`, which the subsequent job-filter
checks treat as a supplied (non-empty) filter — supplying an empty-CSV
whitelist together with a blacklist trips the conflict check (exit 1). -/
theorem C10_thm :
    (∀ s : String, 0 < (csv_list s).length) ∧
    csv_list "a,b" = ["a", "b"] ∧
    csv_list "" = [""] ∧
    ([""] : List String).isEmpty = false ∧
    argsEmptyWhitelist.jobs_whitelist = csv_list "" ∧
    (runMain argsEmptyWhitelist cfgShared wstd).code = 1 ∧
    Event.logError jobsConflictMsg ∈ (runMain argsEmptyWhitelist cfgShared wstd).events :=
  ⟨csv_list_length_pos, by decide, by decide, by decide, by decide, by decide, by decide⟩
